import Mathlib

/-!
Verification of the filter-function converter of `usvg` (resvg),
`src/usvg/src/filter/funcs.rs`.

The converter maps a filter-effect function (grayscale, sepia, saturate,
hue-rotate, invert, opacity, brightness, contrast, blur, drop-shadow) with
typed arguments to one tagged filter primitive.  Floating-point numbers
(`f64`) are embedded as exact rationals (`ℚ`); the coefficient formulas are
plain field arithmetic, so the rational model computes the same expressions
exactly.  Collaborators that live outside the provided source file
(`PositiveNumber`, `Opacity`, `Color`, the angle type, the length-resolution
context and the document-tree colour lookup) are modelled from the spec,
each marked `Modelled from the spec:` in its doc comment.
-/

namespace Usvg

/-- Modelled from the spec: `PositiveNumber` (declared outside the provided
source) is "a float invariant-checked to be ≥ 0"; out-of-range inputs are
clamped rather than rejected (§7), so construction clamps to `≥ 0`. -/
structure PositiveNumber where
  val : ℚ
deriving DecidableEq, Repr

/-- Modelled from the spec: constructing a `PositiveNumber` normalizes the
value by clamping it to be non-negative. -/
def PositiveNumber.new (n : ℚ) : PositiveNumber :=
  ⟨max n 0⟩

/-- Modelled from the spec: `Opacity` is "a float invariant-checked to lie
in [0,1]" (declared outside the provided source). -/
structure Opacity where
  val : ℚ
deriving DecidableEq, Repr

/-- Modelled from the spec: the shadow primitive's opacity "defaults to
fully opaque". -/
def Opacity.default : Opacity :=
  ⟨1⟩

/-- Modelled from the spec: a colour is an "RGB triple" (declared outside
the provided source). -/
structure Color where
  r : ℕ
  g : ℕ
  b : ℕ
deriving DecidableEq, Repr

/-- Modelled from the spec: the "opaque black" default colour. -/
def Color.black : Color :=
  ⟨0, 0, 0⟩

/-- Modelled from the spec: the external angle type, treated as a typed
argument exposing only its conversion to degrees. -/
structure Angle where
  to_degrees : ℚ
deriving DecidableEq, Repr

/-- Modelled from the spec: a length value "expressed in the document's
native length unit system", treated as an abstract token that only the
length-resolution context can interpret. -/
structure Length where
  id : ℕ
deriving DecidableEq, Repr

/-- Modelled from the spec: a node of the externally owned document tree,
abstract to this core. -/
structure Node where
  id : ℕ
deriving DecidableEq, Repr

/-- Reference attribute axes used by the converter when querying the
length-resolution context, plus the ambient colour attribute. -/
inductive AId where
  | Dx
  | Dy
  | Color
deriving DecidableEq, Repr

/-- Target unit space for length resolution; the converter always requests
user-space units. -/
inductive Units where
  | UserSpaceOnUse
deriving DecidableEq, Repr

/-- Modelled from the spec: the read-only context supplied by the caller.
It bundles the length-resolution query service ("given a length value, a
reference attribute axis, and a target unit space, returns a resolved
numeric value in user-space units") and the document-tree lookup capability
(`find_inherited_color(node) -> Option<Color>`, §9). -/
structure State where
  convert_length : Length → Node → AId → Units → ℚ
  find_inherited_color : Node → Option Color

/-- Identifies the upstream image source of a primitive; this core always
targets the source graphic. -/
inductive FilterInput where
  | SourceGraphic
deriving DecidableEq, Repr

/-- Kind payload of a colour-matrix primitive. -/
inductive FeColorMatrixKind where
  | Matrix (values : List ℚ)
  | Saturate (v : PositiveNumber)
  | HueRotate (deg : ℚ)
deriving DecidableEq, Repr

/-- Colour-matrix filter primitive. -/
structure FeColorMatrix where
  input : FilterInput
  kind : FeColorMatrixKind
deriving DecidableEq, Repr

/-- Per-channel remapping curve of a component-transfer primitive. -/
inductive TransferFunction where
  | Identity
  | Table (values : List ℚ)
  | Linear (slope : ℚ) (intercept : ℚ)
deriving DecidableEq, Repr

/-- Component-transfer filter primitive. -/
structure FeComponentTransfer where
  input : FilterInput
  func_r : TransferFunction
  func_g : TransferFunction
  func_b : TransferFunction
  func_a : TransferFunction
deriving DecidableEq, Repr

/-- Gaussian-blur filter primitive. -/
structure FeGaussianBlur where
  input : FilterInput
  std_dev_x : PositiveNumber
  std_dev_y : PositiveNumber
deriving DecidableEq, Repr

/-- Drop-shadow filter primitive. -/
structure FeDropShadow where
  input : FilterInput
  dx : ℚ
  dy : ℚ
  std_dev_x : PositiveNumber
  std_dev_y : PositiveNumber
  color : Color
  opacity : Opacity
deriving DecidableEq, Repr

/-- Tagged union of the filter primitives this converter produces. -/
inductive FilterKind where
  | FeColorMatrix (v : FeColorMatrix)
  | FeComponentTransfer (v : FeComponentTransfer)
  | FeGaussianBlur (v : FeGaussianBlur)
  | FeDropShadow (v : FeDropShadow)
deriving DecidableEq, Repr

/-- Embedding of `convert_grayscale` (funcs.rs lines 13-39). -/
def convert_grayscale (amount : ℚ) : FilterKind :=
  let amount := min amount 1
  FilterKind.FeColorMatrix
    { input := FilterInput.SourceGraphic
      kind := FeColorMatrixKind.Matrix [
        0.2126 + 0.7874 * (1 - amount),
        0.7152 - 0.7152 * (1 - amount),
        0.0722 - 0.0722 * (1 - amount),
        0,
        0,

        0.2126 - 0.2126 * (1 - amount),
        0.7152 + 0.2848 * (1 - amount),
        0.0722 - 0.0722 * (1 - amount),
        0,
        0,

        0.2126 - 0.2126 * (1 - amount),
        0.7152 - 0.7152 * (1 - amount),
        0.0722 + 0.9278 * (1 - amount),
        0,
        0,

        0, 0, 0, 1, 0 ] }

/-- Embedding of `convert_sepia` (funcs.rs lines 42-68). -/
def convert_sepia (amount : ℚ) : FilterKind :=
  let amount := min amount 1
  FilterKind.FeColorMatrix
    { input := FilterInput.SourceGraphic
      kind := FeColorMatrixKind.Matrix [
        0.393 + 0.607 * (1 - amount),
        0.769 - 0.769 * (1 - amount),
        0.189 - 0.189 * (1 - amount),
        0,
        0,

        0.349 - 0.349 * (1 - amount),
        0.686 + 0.314 * (1 - amount),
        0.168 - 0.168 * (1 - amount),
        0,
        0,

        0.272 - 0.272 * (1 - amount),
        0.534 - 0.534 * (1 - amount),
        0.131 + 0.869 * (1 - amount),
        0,
        0,

        0, 0, 0, 1, 0 ] }

/-- Embedding of `convert_saturate` (funcs.rs lines 71-77). -/
def convert_saturate (amount : ℚ) : FilterKind :=
  let amount := PositiveNumber.new (max amount 0)
  FilterKind.FeColorMatrix
    { input := FilterInput.SourceGraphic
      kind := FeColorMatrixKind.Saturate amount }

/-- Embedding of `convert_hue_rotate` (funcs.rs lines 80-85). -/
def convert_hue_rotate (amount : Angle) : FilterKind :=
  FilterKind.FeColorMatrix
    { input := FilterInput.SourceGraphic
      kind := FeColorMatrixKind.HueRotate amount.to_degrees }

/-- Embedding of `convert_invert` (funcs.rs lines 88-97). -/
def convert_invert (amount : ℚ) : FilterKind :=
  let amount := min amount 1
  FilterKind.FeComponentTransfer
    { input := FilterInput.SourceGraphic
      func_r := TransferFunction.Table [amount, 1 - amount]
      func_g := TransferFunction.Table [amount, 1 - amount]
      func_b := TransferFunction.Table [amount, 1 - amount]
      func_a := TransferFunction.Identity }

/-- Embedding of `convert_opacity` (funcs.rs lines 100-109). -/
def convert_opacity (amount : ℚ) : FilterKind :=
  let amount := min amount 1
  FilterKind.FeComponentTransfer
    { input := FilterInput.SourceGraphic
      func_r := TransferFunction.Identity
      func_g := TransferFunction.Identity
      func_b := TransferFunction.Identity
      func_a := TransferFunction.Table [0, amount] }

/-- Embedding of `convert_brightness` (funcs.rs lines 112-120). -/
def convert_brightness (amount : ℚ) : FilterKind :=
  FilterKind.FeComponentTransfer
    { input := FilterInput.SourceGraphic
      func_r := TransferFunction.Linear amount 0
      func_g := TransferFunction.Linear amount 0
      func_b := TransferFunction.Linear amount 0
      func_a := TransferFunction.Identity }

/-- Embedding of `convert_contrast` (funcs.rs lines 123-131). -/
def convert_contrast (amount : ℚ) : FilterKind :=
  FilterKind.FeComponentTransfer
    { input := FilterInput.SourceGraphic
      func_r := TransferFunction.Linear amount (-(0.5 * amount) + 0.5)
      func_g := TransferFunction.Linear amount (-(0.5 * amount) + 0.5)
      func_b := TransferFunction.Linear amount (-(0.5 * amount) + 0.5)
      func_a := TransferFunction.Identity }

/-- Embedding of `convert_blur` (funcs.rs lines 134-147). -/
def convert_blur (node : Node) (std_dev : Length) (state : State) : FilterKind :=
  let std_dev := PositiveNumber.new
    (state.convert_length std_dev node AId.Dx Units.UserSpaceOnUse)
  FilterKind.FeGaussianBlur
    { input := FilterInput.SourceGraphic
      std_dev_x := std_dev
      std_dev_y := std_dev }

/-- Embedding of `convert_drop_shadow` (funcs.rs lines 150-174). -/
def convert_drop_shadow (node : Node) (color : Option Color)
    (dx : Length) (dy : Length) (std_dev : Length) (state : State) : FilterKind :=
  let std_dev := PositiveNumber.new
    (state.convert_length std_dev node AId.Dx Units.UserSpaceOnUse)
  let color := color.getD ((state.find_inherited_color node).getD Color.black)
  FilterKind.FeDropShadow
    { input := FilterInput.SourceGraphic
      dx := state.convert_length dx node AId.Dx Units.UserSpaceOnUse
      dy := state.convert_length dy node AId.Dy Units.UserSpaceOnUse
      std_dev_x := std_dev
      std_dev_y := std_dev
      color := color
      opacity := Opacity.default }

/-- Specification-side definition, for comparison with `convert_grayscale`:
the grayscale interpolation matrix evaluated at the raw amount with no clamp
applied (spec §4.1: "negative values are accepted as-is"). -/
def grayscale_formula (amount : ℚ) : FilterKind :=
  FilterKind.FeColorMatrix
    { input := FilterInput.SourceGraphic
      kind := FeColorMatrixKind.Matrix [
        0.2126 + 0.7874 * (1 - amount),
        0.7152 - 0.7152 * (1 - amount),
        0.0722 - 0.0722 * (1 - amount),
        0,
        0,
        0.2126 - 0.2126 * (1 - amount),
        0.7152 + 0.2848 * (1 - amount),
        0.0722 - 0.0722 * (1 - amount),
        0,
        0,
        0.2126 - 0.2126 * (1 - amount),
        0.7152 - 0.7152 * (1 - amount),
        0.0722 + 0.9278 * (1 - amount),
        0,
        0,
        0, 0, 0, 1, 0 ] }

/-- Specification-side definition, for comparison with `convert_sepia`: the
sepia interpolation matrix evaluated at the raw amount with no clamp
applied. -/
def sepia_formula (amount : ℚ) : FilterKind :=
  FilterKind.FeColorMatrix
    { input := FilterInput.SourceGraphic
      kind := FeColorMatrixKind.Matrix [
        0.393 + 0.607 * (1 - amount),
        0.769 - 0.769 * (1 - amount),
        0.189 - 0.189 * (1 - amount),
        0,
        0,
        0.349 - 0.349 * (1 - amount),
        0.686 + 0.314 * (1 - amount),
        0.168 - 0.168 * (1 - amount),
        0,
        0,
        0.272 - 0.272 * (1 - amount),
        0.534 - 0.534 * (1 - amount),
        0.131 + 0.869 * (1 - amount),
        0,
        0,
        0, 0, 0, 1, 0 ] }

/-- C1: for every context (hence also any whose length resolution yields a
negative user-space value), the std-dev fields of the primitives returned by
`convert_blur` and `convert_drop_shadow` are non-negative: the resolved value
is clamped to `≥ 0` when stored into the `PositiveNumber` fields, so the
`PositiveNumber ≥ 0` invariant always holds on the result. -/
theorem blur_drop_shadow_std_dev_nonneg (node : Node) (c : Option Color)
    (dx dy std_dev : Length) (state : State) :
    (∃ p, convert_blur node std_dev state = FilterKind.FeGaussianBlur p ∧
      0 ≤ p.std_dev_x.val ∧ 0 ≤ p.std_dev_y.val) ∧
    (∃ p, convert_drop_shadow node c dx dy std_dev state = FilterKind.FeDropShadow p ∧
      0 ≤ p.std_dev_x.val ∧ 0 ≤ p.std_dev_y.val) :=
  ⟨⟨_, rfl, le_max_right _ _, le_max_right _ _⟩,
   ⟨_, rfl, le_max_right _ _, le_max_right _ _⟩⟩

/-- C2: `convert_drop_shadow` resolves `dx` against the `Dx` axis, `dy`
against the `Dy` axis and `stdDeviation` against its own reference axis
(`Dx`), each independently into user-space units, and stores the resolved
`dx` and `dy` unchanged (unclamped) in the returned primitive. -/
theorem drop_shadow_resolves_axes_independently (node : Node) (c : Option Color)
    (dx dy std_dev : Length) (state : State) :
    ∃ p, convert_drop_shadow node c dx dy std_dev state = FilterKind.FeDropShadow p ∧
      p.dx = state.convert_length dx node AId.Dx Units.UserSpaceOnUse ∧
      p.dy = state.convert_length dy node AId.Dy Units.UserSpaceOnUse ∧
      p.std_dev_x = PositiveNumber.new
        (state.convert_length std_dev node AId.Dx Units.UserSpaceOnUse) ∧
      p.std_dev_y = PositiveNumber.new
        (state.convert_length std_dev node AId.Dx Units.UserSpaceOnUse) :=
  ⟨_, rfl, rfl, rfl, rfl, rfl⟩

/-- C3: `convert_grayscale` and `convert_sepia` clamp only above: at any
amount `≥ 1` they return exactly the primitive returned at amount `= 1`, and
at any amount `< 1` (including negative amounts) the amount is used as-is in
the interpolation formula, with no lower clamp. -/
theorem grayscale_sepia_upper_clamp (a b : ℚ) (ha : 1 ≤ a) (hb : b < 1) :
    convert_grayscale a = convert_grayscale 1 ∧
    convert_sepia a = convert_sepia 1 ∧
    convert_grayscale b = grayscale_formula b ∧
    convert_sepia b = sepia_formula b := by
  refine ⟨?_, ?_, ?_, ?_⟩ <;>
    simp [convert_grayscale, convert_sepia, grayscale_formula, sepia_formula,
      min_eq_right ha, min_eq_left hb.le]

/-- Witness for C3 at amounts `2` (above the clamp) and `-1` (below it). -/
theorem grayscale_sepia_upper_clamp_witness :
    convert_grayscale 2 = convert_grayscale 1 ∧
    convert_sepia 2 = convert_sepia 1 ∧
    convert_grayscale (-1) = grayscale_formula (-1) ∧
    convert_sepia (-1) = sepia_formula (-1) :=
  grayscale_sepia_upper_clamp 2 (-1) (by norm_num) (by norm_num)

/-- C4: the colour of the primitive returned by `convert_drop_shadow` follows
the three-step fallback: an explicit colour argument is used unchanged;
otherwise the inherited ambient colour found by the tree lookup is used;
otherwise the colour is opaque black. -/
theorem drop_shadow_color_fallback (node : Node) (c : Color)
    (dx dy std_dev : Length) (state : State) :
    (∃ p, convert_drop_shadow node (some c) dx dy std_dev state =
        FilterKind.FeDropShadow p ∧ p.color = c) ∧
    (∃ p, convert_drop_shadow node none dx dy std_dev state =
        FilterKind.FeDropShadow p ∧
      p.color = (state.find_inherited_color node).getD Color.black) ∧
    (state.find_inherited_color node = none →
      ∃ p, convert_drop_shadow node none dx dy std_dev state =
          FilterKind.FeDropShadow p ∧ p.color = Color.black) := by
  refine ⟨⟨_, rfl, rfl⟩, ⟨_, rfl, rfl⟩, fun h => ⟨_, rfl, ?_⟩⟩
  simp [h]

/-- C5: `convert_saturate` clamps only below: at any amount `< 0` it returns
exactly the primitive returned at amount `= 0`, and at every amount it
returns a `ColorMatrix` primitive whose kind is the dedicated `Saturate`
variant carrying the clamped non-negative amount, never a raw `Matrix`. -/
theorem saturate_lower_clamp (a b : ℚ) (hb : b < 0) :
    convert_saturate b = convert_saturate 0 ∧
    convert_saturate a = FilterKind.FeColorMatrix
      { input := FilterInput.SourceGraphic
        kind := FeColorMatrixKind.Saturate ⟨max a 0⟩ } ∧
    0 ≤ max a 0 := by
  refine ⟨?_, ?_, le_max_right a 0⟩
  · simp [convert_saturate, PositiveNumber.new, max_eq_right hb.le]
  · simp [convert_saturate, PositiveNumber.new, max_eq_left (le_max_right a 0)]

/-- Witness for C5 at amounts `5` (kept) and `-2` (clamped to `0`). -/
theorem saturate_lower_clamp_witness :
    convert_saturate (-2) = convert_saturate 0 ∧
    convert_saturate 5 = FilterKind.FeColorMatrix
      { input := FilterInput.SourceGraphic
        kind := FeColorMatrixKind.Saturate ⟨max 5 0⟩ } ∧
    0 ≤ max (5 : ℚ) 0 :=
  saturate_lower_clamp 5 (-2) (by norm_num)

/-- C6: `convert_invert` returns a component-transfer primitive whose R, G
and B channels are the two-point table `[min(amount,1), 1 - min(amount,1)]`
and whose alpha channel is the identity; at amount `0` the R/G/B tables are
`[0, 1]` and at amount `1` they are `[1, 0]`. -/
theorem invert_transfer_tables (amount : ℚ) :
    convert_invert amount = FilterKind.FeComponentTransfer
      { input := FilterInput.SourceGraphic
        func_r := TransferFunction.Table [min amount 1, 1 - min amount 1]
        func_g := TransferFunction.Table [min amount 1, 1 - min amount 1]
        func_b := TransferFunction.Table [min amount 1, 1 - min amount 1]
        func_a := TransferFunction.Identity } ∧
    convert_invert 0 = FilterKind.FeComponentTransfer
      { input := FilterInput.SourceGraphic
        func_r := TransferFunction.Table [0, 1]
        func_g := TransferFunction.Table [0, 1]
        func_b := TransferFunction.Table [0, 1]
        func_a := TransferFunction.Identity } ∧
    convert_invert 1 = FilterKind.FeComponentTransfer
      { input := FilterInput.SourceGraphic
        func_r := TransferFunction.Table [1, 0]
        func_g := TransferFunction.Table [1, 0]
        func_b := TransferFunction.Table [1, 0]
        func_a := TransferFunction.Identity } := by
  have h0 : min (0 : ℚ) 1 = 0 := min_eq_left (by norm_num)
  refine ⟨rfl, ?_, ?_⟩ <;> simp [convert_invert, h0]

/-- C7: `convert_opacity` returns a component-transfer primitive whose R, G
and B channels are the identity and whose alpha channel is the two-point
table `[0, min(amount,1)]`; at amount `1` the alpha table is `[0, 1]` and at
amount `0` it is `[0, 0]`. -/
theorem opacity_transfer_tables (amount : ℚ) :
    convert_opacity amount = FilterKind.FeComponentTransfer
      { input := FilterInput.SourceGraphic
        func_r := TransferFunction.Identity
        func_g := TransferFunction.Identity
        func_b := TransferFunction.Identity
        func_a := TransferFunction.Table [0, min amount 1] } ∧
    convert_opacity 1 = FilterKind.FeComponentTransfer
      { input := FilterInput.SourceGraphic
        func_r := TransferFunction.Identity
        func_g := TransferFunction.Identity
        func_b := TransferFunction.Identity
        func_a := TransferFunction.Table [0, 1] } ∧
    convert_opacity 0 = FilterKind.FeComponentTransfer
      { input := FilterInput.SourceGraphic
        func_r := TransferFunction.Identity
        func_g := TransferFunction.Identity
        func_b := TransferFunction.Identity
        func_a := TransferFunction.Table [0, 0] } := by
  have h0 : min (0 : ℚ) 1 = 0 := min_eq_left (by norm_num)
  refine ⟨rfl, ?_, ?_⟩ <;> simp [convert_opacity, h0]

/-- C8: `convert_contrast` performs no clamping: for every amount the R, G
and B channels are the linear transfer with slope `amount` and intercept
`-0.5 * amount + 0.5` and the alpha channel is the identity; at amount `1`
the R/G/B transfer is slope `1`, intercept `0`. -/
theorem contrast_linear_transfer (amount : ℚ) :
    convert_contrast amount = FilterKind.FeComponentTransfer
      { input := FilterInput.SourceGraphic
        func_r := TransferFunction.Linear amount (-(0.5 * amount) + 0.5)
        func_g := TransferFunction.Linear amount (-(0.5 * amount) + 0.5)
        func_b := TransferFunction.Linear amount (-(0.5 * amount) + 0.5)
        func_a := TransferFunction.Identity } ∧
    -(0.5 * amount) + 0.5 = -0.5 * amount + 0.5 ∧
    convert_contrast 1 = FilterKind.FeComponentTransfer
      { input := FilterInput.SourceGraphic
        func_r := TransferFunction.Linear 1 0
        func_g := TransferFunction.Linear 1 0
        func_b := TransferFunction.Linear 1 0
        func_a := TransferFunction.Identity } := by
  refine ⟨rfl, by ring, ?_⟩
  norm_num [convert_contrast]

/-- C9: `convert_hue_rotate` returns a colour-matrix primitive whose kind is
the `HueRotate` variant carrying exactly the input angle converted to
degrees, with no clamping and no normalization into `[0, 360)`: a full-turn
input of 360 degrees is encoded as the numeric value 360. -/
theorem hue_rotate_degrees_unnormalized (amount : Angle) :
    convert_hue_rotate amount = FilterKind.FeColorMatrix
      { input := FilterInput.SourceGraphic
        kind := FeColorMatrixKind.HueRotate amount.to_degrees } ∧
    convert_hue_rotate ⟨360⟩ = FilterKind.FeColorMatrix
      { input := FilterInput.SourceGraphic
        kind := FeColorMatrixKind.HueRotate 360 } :=
  ⟨rfl, rfl⟩

/-- C10: `convert_grayscale` at amount `0` returns the identity colour
matrix: the 20 coefficients are exactly row-major
`[1,0,0,0,0, 0,1,0,0,0, 0,0,1,0,0, 0,0,0,1,0]`. -/
theorem grayscale_zero_identity_matrix :
    convert_grayscale 0 = FilterKind.FeColorMatrix
      { input := FilterInput.SourceGraphic
        kind := FeColorMatrixKind.Matrix
          [1, 0, 0, 0, 0,
           0, 1, 0, 0, 0,
           0, 0, 1, 0, 0,
           0, 0, 0, 1, 0] } := by
  have h0 : min (0 : ℚ) 1 = 0 := min_eq_left (by norm_num)
  norm_num [convert_grayscale, h0]

end Usvg
